import Mathlib

/-
Verification of the murmur room coordinator (VibeRoom durable object).

The TypeScript source is shallowly embedded as follows:
- JavaScript numbers are modelled as exact rationals (ℚ); all arithmetic the
  claims exercise (addition, min/max clamping, multiplication by 0.2,
  Math.round, Math.ceil of an integer division) is exact on the inputs at
  stake, so ℚ is a faithful model of the code's numeric behaviour here.
- Absent-or-NaN numeric delta fields (`param in deltas` / `Number(...)` /
  `isNaN`) are modelled as `Option ℚ` with `none` for absent or non-numeric.
- SQL rows are modelled as the values they hold; `JSON.parse` success or
  failure of the singleton state row is modelled by the `StoredRow` sum
  (the serializer round-trips, so a successfully parsed row is the state
  that was written).
- `String.prototype.trim` / `toUpperCase` / `slice(0, n)` are modelled over
  the string's character list (jsTrim, jsToUpper, jsSlice).
-/

namespace Murmur

/-- Valid musical keys, from VALID_KEYS in the source. -/
def VALID_KEYS : List String := ["C", "D", "E", "F", "G", "A", "B"]

/-- Valid musical modes, from VALID_MODES in the source. -/
def VALID_MODES : List String := ["major", "minor", "dorian", "mixolydian"]

/-- Valid instrument identifiers, from VALID_INSTRUMENTS in the source. -/
def VALID_INSTRUMENTS : List String := ["pad", "pluck", "bass", "bells", "noise"]

/-- The singleton room state (VibeState in src/unnamed/part_000). -/
structure VibeState where
  tempo : ℚ
  key : String
  mode : String
  reverbMix : ℚ
  delayMix : ℚ
  filterCutoff : ℚ
  density : ℚ
  brightness : ℚ
  instruments : List String
  seed : ℚ
  description : String
deriving DecidableEq

/-- DEFAULT_VIBE_STATE from the source (0.4 = 2/5, 0.2 = 1/5, 0.5 = 1/2). -/
def DEFAULT_VIBE_STATE : VibeState :=
  { tempo := 72
    key := "C"
    mode := "minor"
    reverbMix := 2/5
    delayMix := 1/5
    filterCutoff := 3000
    density := 2/5
    brightness := 1/2
    instruments := ["pad", "pluck", "bass"]
    seed := 42
    description := "A calm, contemplative ambient space." }

/-- PARAM_RANGES from the source: name, min, max, in Object.entries order. -/
def PARAM_RANGES : List (String × ℚ × ℚ) :=
  [("tempo", 40, 120), ("reverbMix", 0, 1), ("delayMix", 0, 1),
   ("filterCutoff", 200, 8000), ("density", 0, 1), ("brightness", 0, 1),
   ("seed", 1, 999999)]

/-- The `deltas` object parsed from the interpreter oracle's response.
Numeric fields are `none` for absent-or-NaN (`param in deltas` fails or
`Number(deltas[param])` is NaN); `key`, `mode`, `instruments` carry the raw
proposed values, validated at application time. -/
structure Deltas where
  tempo : Option ℚ := none
  reverbMix : Option ℚ := none
  delayMix : Option ℚ := none
  filterCutoff : Option ℚ := none
  density : Option ℚ := none
  brightness : Option ℚ := none
  seed : Option ℚ := none
  key : Option String := none
  mode : Option String := none
  instruments : Option (List String) := none
deriving DecidableEq

/-- One iteration of the PARAM_RANGES clamping loop in processPrompt: a
present numeric delta is clamped to ±20% of the range width, added to the
current value, and the sum clamped to the absolute range; an absent delta
leaves the field unchanged. -/
def applyNumericDelta (lo hi cur : ℚ) : Option ℚ → ℚ
  | none => cur
  | some d =>
    let maxDelta := (hi - lo) * (1/5)
    let clampedDelta := max (-maxDelta) (min maxDelta d)
    max lo (min hi (cur + clampedDelta))

/-- The delta-application block of processPrompt (source lines 346-391):
the numeric loop over PARAM_RANGES (unrolled; the iterations are
independent, each writing one distinct field from the pre-update state),
then the direct-set blocks for key, mode, instruments and seed, in source
order, then the description overwrite. Note that `seed` appears both in the
numeric loop (as the last PARAM_RANGES entry) and in its own direct-set
block that runs after the loop. -/
def applyDeltas (cur : VibeState) (d : Deltas) (descr : String) : VibeState :=
  let afterNumeric : VibeState :=
    { cur with
      tempo := applyNumericDelta 40 120 cur.tempo d.tempo
      reverbMix := applyNumericDelta 0 1 cur.reverbMix d.reverbMix
      delayMix := applyNumericDelta 0 1 cur.delayMix d.delayMix
      filterCutoff := applyNumericDelta 200 8000 cur.filterCutoff d.filterCutoff
      density := applyNumericDelta 0 1 cur.density d.density
      brightness := applyNumericDelta 0 1 cur.brightness d.brightness
      seed := applyNumericDelta 1 999999 cur.seed d.seed }
  let afterKey : VibeState :=
    match d.key with
    | some k => if VALID_KEYS.contains k then { afterNumeric with key := k } else afterNumeric
    | none => afterNumeric
  let afterMode : VibeState :=
    match d.mode with
    | some m => if VALID_MODES.contains m then { afterKey with mode := m } else afterKey
    | none => afterKey
  let afterInstruments : VibeState :=
    match d.instruments with
    | some l =>
      let validInstruments := l.filter (fun i => VALID_INSTRUMENTS.contains i)
      if validInstruments.length > 0 then { afterMode with instruments := validInstruments }
      else afterMode
    | none => afterMode
  let afterSeed : VibeState :=
    match d.seed with
    | some seedVal =>
      if 1 ≤ seedVal ∧ seedVal ≤ 999999 then { afterInstruments with seed := ((round seedVal : ℤ) : ℚ) }
      else afterInstruments
    | none => afterInstruments
  { afterSeed with description := descr }

/-- A sequence of applied interpreter updates, folded over the state. -/
def applySeq (s : VibeState) (updates : List (Deltas × String)) : VibeState :=
  updates.foldl (fun acc u => applyDeltas acc u.1 u.2) s

/-- Every numeric field of the state lies in its PARAM_RANGES range. -/
def numericInRange (s : VibeState) : Prop :=
  40 ≤ s.tempo ∧ s.tempo ≤ 120 ∧
  0 ≤ s.reverbMix ∧ s.reverbMix ≤ 1 ∧
  0 ≤ s.delayMix ∧ s.delayMix ≤ 1 ∧
  200 ≤ s.filterCutoff ∧ s.filterCutoff ≤ 8000 ∧
  0 ≤ s.density ∧ s.density ≤ 1 ∧
  0 ≤ s.brightness ∧ s.brightness ≤ 1 ∧
  1 ≤ s.seed ∧ s.seed ≤ 999999

instance (s : VibeState) : Decidable (numericInRange s) := by
  unfold numericInRange
  infer_instance

/-- ASCII whitespace recognized by String.prototype.trim for the inputs at
stake. -/
def wsChar (c : Char) : Bool := c = ' ' || c = '\t' || c = '\n' || c = '\r'

/-- Model of String.prototype.trim over the character list. -/
def jsTrim (s : String) : String :=
  ⟨((s.data.dropWhile wsChar).reverse.dropWhile wsChar).reverse⟩

/-- Model of String.prototype.toUpperCase over the character list. -/
def jsToUpper (s : String) : String := ⟨s.data.map Char.toUpper⟩

/-- Model of String.prototype.slice(0, n). -/
def jsSlice (s : String) (n : Nat) : String := ⟨s.data.take n⟩

/-- Content of the singleton vibe_state row: either text that JSON.parse
turns back into the VibeState that was serialized into it, or corrupted
text on which JSON.parse throws. -/
inductive StoredRow
  | good (s : VibeState)
  | corrupt (raw : String)
deriving DecidableEq

/-- Model of JSON.parse on a stored row: the state it was serialized from,
or failure. -/
def parseStoredState : StoredRow → Option VibeState
  | .good s => some s
  | .corrupt _ => none

/-- getVibeState from the source: read the singleton row; if absent return
a copy of the defaults; try to parse it, and on parse failure return a copy
of the defaults. -/
def getVibeState (row : Option StoredRow) : VibeState :=
  match row with
  | none => DEFAULT_VIBE_STATE
  | some r =>
    match parseStoredState r with
    | some s => s
    | none => DEFAULT_VIBE_STATE

/-- The state-seeding step of onStart: SELECT the singleton row and INSERT
the defaults only when no row exists. Returns the row afterwards and
whether an INSERT was performed. -/
def onStartSeed : Option StoredRow → Option StoredRow × Bool
  | none => (some (.good DEFAULT_VIBE_STATE), true)
  | some r => (some r, false)

/-- A row of the prompts table (VibePrompt in the source); created_at is
the creation time (the datetime text is order-isomorphic to it). -/
structure VibePrompt where
  id : String
  author_name : String
  text : String
  created_at : Nat
deriving DecidableEq

/-- The durable storage a prompt pipeline touches: the singleton vibe_state
row and the prompts table (kept as the list of its rows). -/
structure RoomDB where
  stateRow : Option StoredRow
  prompts : List VibePrompt
deriving DecidableEq

/-- Outbound fan-out messages (VibeMessage in the source). -/
inductive VibeMessage
  | vibe_state (state : VibeState) (recentPrompts : List VibePrompt)
  | vibe_updated (state : VibeState) (prompt : VibePrompt)
  | prompt_rejected (error : String)
deriving DecidableEq

/-- True exactly on prompt_rejected messages. -/
def isRejectionMsg : VibeMessage → Bool
  | .prompt_rejected _ => true
  | _ => false

/-- broadcastRejection from the source: DELETE the prompt row by id, then
broadcast one prompt_rejected message carrying the reason. -/
def broadcastRejection (db : RoomDB) (promptId : String) (error : String) :
    RoomDB × List VibeMessage :=
  ({ db with prompts := db.prompts.filter (fun p => p.id != promptId) },
   [.prompt_rejected error])

/-- Outcome of the moderation oracle call: the call threw, or it returned
and its `response` field was absent or the given text. -/
inductive ModOutcome
  | failure
  | ok (response : Option String)

/-- Outcome of the interpretation stage: the oracle call threw, or a deltas
object and optional description were obtained. `parsed` also covers the
soft-fail path in the source: a response with no well-formed JSON object
yields empty deltas and no description, never an exception. -/
inductive InterpOutcome
  | failure
  | parsed (deltas : Deltas) (descr : Option String)

/-- The verdict check of processPrompt: the moderation call returned a
response whose trimmed, uppercased text is exactly "SAFE". -/
def verdictIsSafe : ModOutcome → Bool
  | .ok (some r) => jsToUpper (jsTrim r) == "SAFE"
  | _ => false

/-- Fallback description used when the oracle supplies none. -/
def FALLBACK_DESCRIPTION : String := "The vibe continues to evolve."

/-- The deferred pipeline processPrompt (source lines 257-407): moderation
verdict gate, interpretation, delta application, persistence, broadcast;
any thrown oracle error is caught and converted into a rejection. `now`
models the clock read used for the fallback prompt object when the stored
row is missing. Returns the storage afterwards and the broadcast messages. -/
def processPrompt (db : RoomDB) (id text : String) (now : Nat)
    (mod : ModOutcome) (interp : InterpOutcome) : RoomDB × List VibeMessage :=
  match mod with
  | .failure => broadcastRejection db id "Failed to process your vibe. Try again."
  | .ok _ =>
    if verdictIsSafe mod then
      match interp with
      | .failure => broadcastRejection db id "Failed to process your vibe. Try again."
      | .parsed deltas descr =>
        let currentState := getVibeState db.stateRow
        let description := jsSlice (descr.getD FALLBACK_DESCRIPTION) 200
        let newState := applyDeltas currentState deltas description
        let db1 := { db with stateRow := some (.good newState) }
        let promptRec := (db.prompts.find? (fun p => p.id == id)).getD
          { id := id, author_name := "Anonymous", text := text, created_at := now }
        (db1, [.vibe_updated newState promptRec])
    else
      broadcastRejection db id "Content flagged by moderation."

/-- RATE_LIMIT_WINDOW_MS from the source. -/
def RATE_LIMIT_WINDOW_MS : ℤ := 60000

/-- The storage a rate-limiter check touches: the bucket row for the key
(an ordered timestamp list), plus fault switches saying whether the SELECT
or any write (INSERT OR REPLACE / DELETE) throws. -/
structure RLStore where
  row : Option (List ℤ)
  loadFails : Bool := false
  writeFails : Bool := false

/-- Math.ceil of an integer division by a positive divisor, as used for the
retry-after computation. -/
def jsCeilDiv (x d : ℤ) : ℤ := -((-x) / d)

/-- The compaction step of checkRateLimit: keep only the timestamps
strictly newer than now minus the window (an absent row reads as []). -/
def compactBucket (row : Option (List ℤ)) (now : ℤ) : List ℤ :=
  (row.getD []).filter (fun t => now - RATE_LIMIT_WINDOW_MS < t)

/-- The body of checkRateLimit inside its try block (source lines 151-188):
load and compact the bucket; at or above the limit, persist the compacted
bucket and deny with a retry-after in whole seconds; otherwise append now,
persist, accept. The delete of an emptied existing row is immediately
overwritten by the append's INSERT OR REPLACE, so only the final row
content is modelled; a fault on any write step raises before that write
lands. Result: the bucket row afterwards and the denial's retry-after, or
none for acceptance. -/
def checkRateLimitCore (st : RLStore) (now : ℤ) (limit : ℕ) :
    Except Unit (Option (List ℤ) × Option ℤ) :=
  if st.loadFails then .error () else
  let surviving := compactBucket st.row now
  if surviving.length ≥ limit then
    if st.writeFails then .error ()
    else .ok (some surviving,
              some (jsCeilDiv (surviving.headD 0 + RATE_LIMIT_WINDOW_MS - now) 1000))
  else
    if st.writeFails then .error ()
    else .ok (some (surviving ++ [now]), none)

/-- checkRateLimit from the source: the try/catch wrapper; any storage
error is caught and the check returns acceptance with the storage left as
it was. -/
def checkRateLimit (st : RLStore) (now : ℤ) (limit : ℕ) :
    Option (List ℤ) × Option ℤ :=
  match checkRateLimitCore st now limit with
  | .ok r => r
  | .error _ => (st.row, none)

/-- Newer-first comparison on prompt rows: a was created no earlier than b. -/
def moreRecent (a b : VibePrompt) : Prop := b.created_at ≤ a.created_at

instance : DecidableRel moreRecent := fun a b =>
  inferInstanceAs (Decidable (b.created_at ≤ a.created_at))

instance : IsTotal VibePrompt moreRecent :=
  ⟨fun a b => (le_total a.created_at b.created_at).symm⟩

instance : IsTrans VibePrompt moreRecent :=
  ⟨fun _ _ _ h1 h2 => le_trans h2 h1⟩

/-- The prompts table read ORDER BY created_at DESC (modelled with a
sort). -/
def promptsByCreatedDesc (l : List VibePrompt) : List VibePrompt :=
  List.insertionSort moreRecent l

/-- The recent-prompts list of the vibe_state snapshot sent on connect
(source lines 206-209): SELECT ordered most-recent-first, LIMIT 20, then
Array.prototype.reverse. -/
def snapshotRecentPrompts (db : RoomDB) : List VibePrompt :=
  ((promptsByCreatedDesc db.prompts).take 20).reverse

/-- The vibe_state message a newly connected listener receives. -/
def onConnectMsg (db : RoomDB) : VibeMessage :=
  .vibe_state (getVibeState db.stateRow) (snapshotRecentPrompts db)

theorem applyNumericDelta_mem (lo hi cur : ℚ) (od : Option ℚ)
    (h1 : lo ≤ cur) (h2 : cur ≤ hi) :
    lo ≤ applyNumericDelta lo hi cur od ∧ applyNumericDelta lo hi cur od ≤ hi := by
  cases od with
  | none => exact ⟨h1, h2⟩
  | some d =>
    simp only [applyNumericDelta]
    exact ⟨le_max_left _ _, max_le (h1.trans h2) (min_le_left _ _)⟩

theorem applyNumericDelta_dist (lo hi cur : ℚ) (od : Option ℚ)
    (h1 : lo ≤ cur) (h2 : cur ≤ hi) :
    |applyNumericDelta lo hi cur od - cur| ≤ (hi - lo) * (1/5) := by
  have hcap : 0 ≤ (hi - lo) * (1/5) := by nlinarith [h1.trans h2]
  cases od with
  | none =>
    simp only [applyNumericDelta, sub_self, abs_zero]
    exact hcap
  | some d =>
    simp only [applyNumericDelta]
    set cap := (hi - lo) * (1/5) with hcapdef
    set cd := max (-cap) (min cap d) with hcddef
    have hcd_le : cd ≤ cap := max_le (by linarith) (min_le_left _ _)
    have hcd_ge : -cap ≤ cd := le_max_left _ _
    rw [abs_sub_le_iff]
    constructor
    · have hub : max lo (min hi (cur + cd)) ≤ cur + cap :=
        max_le (by linarith) ((min_le_right _ _).trans (by linarith))
      linarith
    · have hlb : cur - cap ≤ max lo (min hi (cur + cd)) :=
        (le_min (by linarith) (by linarith)).trans (le_max_right _ _)
      linarith

theorem applyDeltas_tempo (s : VibeState) (d : Deltas) (descr : String) :
    (applyDeltas s d descr).tempo = applyNumericDelta 40 120 s.tempo d.tempo := by
  rcases d with ⟨t, rm, dm, fc, de, br, sd, k, m, ins⟩
  cases k <;> cases m <;> cases ins <;> cases sd <;>
    dsimp only [applyDeltas] <;> (try split_ifs) <;> rfl

theorem applyDeltas_reverbMix (s : VibeState) (d : Deltas) (descr : String) :
    (applyDeltas s d descr).reverbMix = applyNumericDelta 0 1 s.reverbMix d.reverbMix := by
  rcases d with ⟨t, rm, dm, fc, de, br, sd, k, m, ins⟩
  cases k <;> cases m <;> cases ins <;> cases sd <;>
    dsimp only [applyDeltas] <;> (try split_ifs) <;> rfl

theorem applyDeltas_delayMix (s : VibeState) (d : Deltas) (descr : String) :
    (applyDeltas s d descr).delayMix = applyNumericDelta 0 1 s.delayMix d.delayMix := by
  rcases d with ⟨t, rm, dm, fc, de, br, sd, k, m, ins⟩
  cases k <;> cases m <;> cases ins <;> cases sd <;>
    dsimp only [applyDeltas] <;> (try split_ifs) <;> rfl

theorem applyDeltas_filterCutoff (s : VibeState) (d : Deltas) (descr : String) :
    (applyDeltas s d descr).filterCutoff =
      applyNumericDelta 200 8000 s.filterCutoff d.filterCutoff := by
  rcases d with ⟨t, rm, dm, fc, de, br, sd, k, m, ins⟩
  cases k <;> cases m <;> cases ins <;> cases sd <;>
    dsimp only [applyDeltas] <;> (try split_ifs) <;> rfl

theorem applyDeltas_density (s : VibeState) (d : Deltas) (descr : String) :
    (applyDeltas s d descr).density = applyNumericDelta 0 1 s.density d.density := by
  rcases d with ⟨t, rm, dm, fc, de, br, sd, k, m, ins⟩
  cases k <;> cases m <;> cases ins <;> cases sd <;>
    dsimp only [applyDeltas] <;> (try split_ifs) <;> rfl

theorem applyDeltas_brightness (s : VibeState) (d : Deltas) (descr : String) :
    (applyDeltas s d descr).brightness = applyNumericDelta 0 1 s.brightness d.brightness := by
  rcases d with ⟨t, rm, dm, fc, de, br, sd, k, m, ins⟩
  cases k <;> cases m <;> cases ins <;> cases sd <;>
    dsimp only [applyDeltas] <;> (try split_ifs) <;> rfl

theorem applyDeltas_seed (s : VibeState) (d : Deltas) (descr : String) :
    (applyDeltas s d descr).seed =
      match d.seed with
      | none => s.seed
      | some seedVal =>
        if 1 ≤ seedVal ∧ seedVal ≤ 999999 then ((round seedVal : ℤ) : ℚ)
        else applyNumericDelta 1 999999 s.seed (some seedVal) := by
  rcases d with ⟨t, rm, dm, fc, de, br, sd, k, m, ins⟩
  cases k <;> cases m <;> cases ins <;> cases sd <;>
    dsimp only [applyDeltas] <;> (try split_ifs) <;> rfl

theorem applyDeltas_instruments (s : VibeState) (d : Deltas) (descr : String) :
    (applyDeltas s d descr).instruments =
      match d.instruments with
      | none => s.instruments
      | some l =>
        let validInstruments := l.filter (fun i => VALID_INSTRUMENTS.contains i)
        if validInstruments.length > 0 then validInstruments else s.instruments := by
  rcases d with ⟨t, rm, dm, fc, de, br, sd, k, m, ins⟩
  cases k <;> cases m <;> cases ins <;> cases sd <;>
    dsimp only [applyDeltas] <;> (try split_ifs) <;> rfl

theorem round_rat_mono {x y : ℚ} (h : x ≤ y) : round x ≤ round y := by
  rw [round_eq, round_eq]
  exact Int.floor_mono (by linarith)

theorem round_mem_of_mem {sv : ℚ} (h1 : 1 ≤ sv) (h2 : sv ≤ 999999) :
    (1 : ℚ) ≤ ((round sv : ℤ) : ℚ) ∧ ((round sv : ℤ) : ℚ) ≤ 999999 := by
  have hl : (1 : ℤ) ≤ round sv := by
    have := round_rat_mono h1
    rwa [round_one] at this
  have hr : round sv ≤ (999999 : ℤ) := by
    have h999 : ((999999 : ℤ) : ℚ) = (999999 : ℚ) := by norm_num
    have := round_rat_mono (show sv ≤ ((999999 : ℤ) : ℚ) by rw [h999]; exact h2)
    rwa [round_intCast] at this
  constructor
  · exact_mod_cast hl
  · exact_mod_cast hr

theorem numericInRange_applyDeltas (s : VibeState) (d : Deltas) (descr : String)
    (h : numericInRange s) : numericInRange (applyDeltas s d descr) := by
  obtain ⟨ht1, ht2, hr1, hr2, hd1, hd2, hf1, hf2, hn1, hn2, hb1, hb2, hs1, hs2⟩ := h
  refine ⟨?_, ?_, ?_, ?_, ?_, ?_, ?_, ?_, ?_, ?_, ?_, ?_, ?_, ?_⟩
  · rw [applyDeltas_tempo]; exact (applyNumericDelta_mem _ _ _ _ ht1 ht2).1
  · rw [applyDeltas_tempo]; exact (applyNumericDelta_mem _ _ _ _ ht1 ht2).2
  · rw [applyDeltas_reverbMix]; exact (applyNumericDelta_mem _ _ _ _ hr1 hr2).1
  · rw [applyDeltas_reverbMix]; exact (applyNumericDelta_mem _ _ _ _ hr1 hr2).2
  · rw [applyDeltas_delayMix]; exact (applyNumericDelta_mem _ _ _ _ hd1 hd2).1
  · rw [applyDeltas_delayMix]; exact (applyNumericDelta_mem _ _ _ _ hd1 hd2).2
  · rw [applyDeltas_filterCutoff]; exact (applyNumericDelta_mem _ _ _ _ hf1 hf2).1
  · rw [applyDeltas_filterCutoff]; exact (applyNumericDelta_mem _ _ _ _ hf1 hf2).2
  · rw [applyDeltas_density]; exact (applyNumericDelta_mem _ _ _ _ hn1 hn2).1
  · rw [applyDeltas_density]; exact (applyNumericDelta_mem _ _ _ _ hn1 hn2).2
  · rw [applyDeltas_brightness]; exact (applyNumericDelta_mem _ _ _ _ hb1 hb2).1
  · rw [applyDeltas_brightness]; exact (applyNumericDelta_mem _ _ _ _ hb1 hb2).2
  · rw [applyDeltas_seed]
    cases hsd : d.seed with
    | none => exact hs1
    | some sv =>
      simp only []
      split_ifs with hc
      · exact (round_mem_of_mem hc.1 hc.2).1
      · exact (applyNumericDelta_mem _ _ _ _ hs1 hs2).1
  · rw [applyDeltas_seed]
    cases hsd : d.seed with
    | none => exact hs2
    | some sv =>
      simp only []
      split_ifs with hc
      · exact (round_mem_of_mem hc.1 hc.2).2
      · exact (applyNumericDelta_mem _ _ _ _ hs1 hs2).2

theorem numericInRange_default : numericInRange DEFAULT_VIBE_STATE := by
  unfold numericInRange DEFAULT_VIBE_STATE
  norm_num

theorem numericInRange_applySeq (s : VibeState) (updates : List (Deltas × String))
    (h : numericInRange s) : numericInRange (applySeq s updates) := by
  induction updates generalizing s with
  | nil => exact h
  | cons u us ih =>
    simp only [applySeq, List.foldl_cons]
    exact ih _ (numericInRange_applyDeltas _ _ _ h)

/-- C1: every state reachable from the default state by a sequence of
applied interpreter deltas has all of its numeric fields (tempo, reverbMix,
delayMix, filterCutoff, density, brightness, seed) within the absolute
ranges declared in PARAM_RANGES (tempo 40-120, mixes/density/brightness
0-1, filterCutoff 200-8000, seed 1-999999). -/
theorem reachable_states_numeric_fields_in_range (updates : List (Deltas × String)) :
    numericInRange (applySeq DEFAULT_VIBE_STATE updates) :=
  numericInRange_applySeq _ _ numericInRange_default

theorem instruments_pos_applyDeltas (s : VibeState) (d : Deltas) (descr : String)
    (h : 0 < s.instruments.length) : 0 < (applyDeltas s d descr).instruments.length := by
  rw [applyDeltas_instruments]
  cases d.instruments with
  | none => exact h
  | some l =>
    dsimp only
    split_ifs with hc
    · exact hc
    · exact h

theorem instruments_pos_applySeq (s : VibeState) (updates : List (Deltas × String))
    (h : 0 < s.instruments.length) : 0 < (applySeq s updates).instruments.length := by
  induction updates generalizing s with
  | nil => exact h
  | cons u us ih =>
    simp only [applySeq, List.foldl_cons]
    exact ih _ (instruments_pos_applyDeltas _ _ _ h)

/-- C7: the instrument set of every state reachable from the (non-empty)
default by applied updates is non-empty, and an update replaces the
instrument set exactly when the proposed array filtered to valid
identifiers is non-empty, the previous set being retained otherwise. -/
theorem instruments_never_empty :
    (∀ updates : List (Deltas × String),
      0 < (applySeq DEFAULT_VIBE_STATE updates).instruments.length) ∧
    0 < DEFAULT_VIBE_STATE.instruments.length ∧
    (∀ (s : VibeState) (d : Deltas) (descr : String),
      (applyDeltas s d descr).instruments =
        match d.instruments with
        | none => s.instruments
        | some l =>
          let validInstruments := l.filter (fun i => VALID_INSTRUMENTS.contains i)
          if validInstruments.length > 0 then validInstruments else s.instruments) := by
  refine ⟨?_, ?_, ?_⟩
  · intro updates
    exact instruments_pos_applySeq _ _ (by decide)
  · decide
  · intro s d descr
    exact applyDeltas_instruments s d descr

/-- C2 counterexample: the seed is a numeric field of the state with
declared range 1-999999, yet an applied update proposing seed 999999 moves
it from the default 42 by 999957, far beyond 20% of the range width — the
direct-set block replaces the seed wholesale whenever the proposal is in
range, so the claim's per-field 20% cap does not cover the seed. -/
theorem seed_change_exceeds_twenty_percent_cap :
    numericInRange DEFAULT_VIBE_STATE ∧
    DEFAULT_VIBE_STATE.seed = 42 ∧
    (applyDeltas DEFAULT_VIBE_STATE { seed := some 999999 } "x").seed = 999999 ∧
    (999999 : ℚ) - 42 > (999999 - 1) * (1/5) := by
  refine ⟨numericInRange_default, rfl, ?_, by norm_num⟩
  rw [applyDeltas_seed]
  dsimp only
  rw [if_pos (by norm_num)]
  rw [show ((999999 : ℚ)) = ((999999 : ℤ) : ℚ) by norm_num, round_intCast]

/-- C2 (amended): for every applied update from a state whose numeric
fields are in range, each numeric field other than the seed changes by at
most 20% of its declared range width, whatever delta the oracle proposes
(only the directly-set seed can jump further); in particular a tempo delta
of -30 from tempo 72 yields 56 and a reverbMix delta of 0.5 yields
min(current + 0.2, 1). -/
theorem applied_delta_changes_capped (s : VibeState) (d : Deltas) (descr : String)
    (h : numericInRange s) :
    |(applyDeltas s d descr).tempo - s.tempo| ≤ (120 - 40) * (1/5) ∧
    |(applyDeltas s d descr).reverbMix - s.reverbMix| ≤ (1 - 0) * (1/5) ∧
    |(applyDeltas s d descr).delayMix - s.delayMix| ≤ (1 - 0) * (1/5) ∧
    |(applyDeltas s d descr).filterCutoff - s.filterCutoff| ≤ (8000 - 200) * (1/5) ∧
    |(applyDeltas s d descr).density - s.density| ≤ (1 - 0) * (1/5) ∧
    |(applyDeltas s d descr).brightness - s.brightness| ≤ (1 - 0) * (1/5) ∧
    (s.tempo = 72 → d.tempo = some (-30) → (applyDeltas s d descr).tempo = 56) ∧
    (d.reverbMix = some (1/2) →
      (applyDeltas s d descr).reverbMix = min (s.reverbMix + 1/5) 1) := by
  obtain ⟨ht1, ht2, hr1, hr2, hd1, hd2, hf1, hf2, hn1, hn2, hb1, hb2, hs1, hs2⟩ := h
  refine ⟨?_, ?_, ?_, ?_, ?_, ?_, ?_, ?_⟩
  · rw [applyDeltas_tempo]; exact applyNumericDelta_dist _ _ _ _ ht1 ht2
  · rw [applyDeltas_reverbMix]; exact applyNumericDelta_dist _ _ _ _ hr1 hr2
  · rw [applyDeltas_delayMix]; exact applyNumericDelta_dist _ _ _ _ hd1 hd2
  · rw [applyDeltas_filterCutoff]; exact applyNumericDelta_dist _ _ _ _ hf1 hf2
  · rw [applyDeltas_density]; exact applyNumericDelta_dist _ _ _ _ hn1 hn2
  · rw [applyDeltas_brightness]; exact applyNumericDelta_dist _ _ _ _ hb1 hb2
  · intro ht htd
    rw [applyDeltas_tempo, htd, ht]
    simp only [applyNumericDelta]
    norm_num [min_def, max_def]
  · intro hrm
    rw [applyDeltas_reverbMix, hrm]
    simp only [applyNumericDelta]
    have hclamp : max (-((1 - 0) * (1/5))) (min ((1 - 0) * (1/5)) (1/2)) = (1/5 : ℚ) := by
      norm_num [min_def, max_def]
    rw [hclamp, min_comm, max_eq_right]
    exact le_min (by linarith) (by norm_num)

/-- Witness for the amended C2 theorem at the spec's own scenario: the
default state (tempo 72, reverbMix 0.4) with proposed deltas tempo -30 and
reverbMix 0.5 yields tempo 56 and reverbMix min(0.4 + 0.2, 1). -/
theorem applied_delta_changes_capped_witness :
    (applyDeltas DEFAULT_VIBE_STATE { tempo := some (-30), reverbMix := some (1/2) } "x").tempo = 56 ∧
    (applyDeltas DEFAULT_VIBE_STATE { tempo := some (-30), reverbMix := some (1/2) } "x").reverbMix =
      min (DEFAULT_VIBE_STATE.reverbMix + 1/5) 1 := by
  have h := applied_delta_changes_capped DEFAULT_VIBE_STATE
    { tempo := some (-30), reverbMix := some (1/2) } "x"
    (by norm_num [numericInRange, DEFAULT_VIBE_STATE])
  exact ⟨h.2.2.2.2.2.2.1 rfl rfl, h.2.2.2.2.2.2.2 rfl⟩

/-- C5 counterexample: from the default seed 42, a proposed seed of 2000000
does not parse within 1-999999, yet the seed does not retain its previous
value — the PARAM_RANGES loop applies it as a clamped delta, yielding
42 + 199999.6 = 1000208/5; and a proposed seed of 12.5, which is not an
integer, yields 13 (Math.round) instead of retaining 42. -/
theorem seed_not_retained_counterexample :
    DEFAULT_VIBE_STATE.seed = 42 ∧
    (applyDeltas DEFAULT_VIBE_STATE { seed := some 2000000 } "x").seed = 1000208/5 ∧
    (applyDeltas DEFAULT_VIBE_STATE { seed := some (25/2) } "x").seed = 13 := by
  refine ⟨rfl, ?_, ?_⟩
  · rw [applyDeltas_seed]
    dsimp only
    rw [if_neg (by norm_num)]
    show max 1 (min 999999 ((42 : ℚ) + _)) = 1000208/5
    norm_num [min_def, max_def]
  · rw [applyDeltas_seed]
    dsimp only
    rw [if_pos (by norm_num)]
    norm_num [round_eq]

/-- C5 (amended): the seed after an applied update is Math.round of the
proposed value whenever the proposal parses as a number within 1-999999
(an integer proposal in range is taken exactly); a numeric proposal outside
that range is still applied as a range-clamped delta to the current seed
(seed being the last PARAM_RANGES entry); only an absent or non-numeric
proposal leaves the seed unchanged. -/
theorem seed_replacement_semantics (s : VibeState) (d : Deltas) (descr : String) :
    ((applyDeltas s d descr).seed =
      match d.seed with
      | none => s.seed
      | some seedVal =>
        if 1 ≤ seedVal ∧ seedVal ≤ 999999 then ((round seedVal : ℤ) : ℚ)
        else applyNumericDelta 1 999999 s.seed (some seedVal)) ∧
    (∀ n : ℤ, 1 ≤ n → n ≤ 999999 → d.seed = some ((n : ℤ) : ℚ) →
      (applyDeltas s d descr).seed = ((n : ℤ) : ℚ)) := by
  refine ⟨applyDeltas_seed s d descr, ?_⟩
  intro n hn1 hn2 hd
  rw [applyDeltas_seed, hd]
  dsimp only
  rw [if_pos ⟨by exact_mod_cast hn1, by exact_mod_cast hn2⟩, round_intCast]

/-- Witness for the amended C5 theorem: with proposed seed 7 from the
default state, the resulting seed is exactly 7. -/
theorem seed_replacement_semantics_witness :
    (applyDeltas DEFAULT_VIBE_STATE { seed := some 7 } "x").seed = ((7 : ℤ) : ℚ) :=
  (seed_replacement_semantics DEFAULT_VIBE_STATE { seed := some 7 } "x").2
    7 (by norm_num) (by norm_num) (by norm_num)

theorem filter_id_of_filter_out_id (l : List VibePrompt) (i : String) :
    (l.filter (fun p => p.id != i)).filter (fun p => p.id == i) = [] := by
  induction l with
  | nil => rfl
  | cons a t ih =>
    by_cases h : a.id = i
    · simp only [List.filter, h]
      rw [show (i != i) = false by simp]
      exact ih
    · simp only [List.filter]
      rw [show (a.id != i) = true by simp [h]]
      simp only [List.filter]
      rw [show (a.id == i) = false by simp [h]]
      exact ih

/-- C3 counterexample: a moderation response of "safe" is not exactly the
word "SAFE", yet the pipeline does not reach Rejected — the code uppercases
the trimmed response before comparing, so the prompt is applied: no
prompt_rejected message is broadcast and the provisional record stays in
history. -/
theorem lowercase_safe_response_is_applied :
    (("safe" == "SAFE") = false) ∧
    ((processPrompt ⟨some (.good DEFAULT_VIBE_STATE), [⟨"p1", "Anonymous", "hello", 5⟩]⟩
        "p1" "hello" 5 (.ok (some "safe")) (.parsed {} none)).2.countP isRejectionMsg = 0) ∧
    ((processPrompt ⟨some (.good DEFAULT_VIBE_STATE), [⟨"p1", "Anonymous", "hello", 5⟩]⟩
        "p1" "hello" 5 (.ok (some "safe")) (.parsed {} none)).1.prompts
      = [⟨"p1", "Anonymous", "hello", 5⟩]) := by
  refine ⟨by decide, ?_, ?_⟩ <;> rfl

/-- C3 (amended): whenever the moderation outcome's trimmed, uppercased
response is not the word "SAFE" — including a thrown oracle call, a missing
response field, or a verdict like "UNSURE" — the pipeline reaches Rejected:
the stored room state is untouched, the provisional prompt record no longer
appears in history, and the broadcast consists of exactly one
prompt_rejected message. -/
theorem moderation_fail_closed (db : RoomDB) (id text : String) (now : Nat)
    (mod : ModOutcome) (interp : InterpOutcome)
    (h : verdictIsSafe mod = false) :
    (processPrompt db id text now mod interp).1.stateRow = db.stateRow ∧
    ((processPrompt db id text now mod interp).1.prompts.filter (fun p => p.id == id)) = [] ∧
    ((processPrompt db id text now mod interp).2.countP isRejectionMsg) = 1 ∧
    (processPrompt db id text now mod interp).2.length = 1 := by
  cases mod with
  | failure =>
    simp [processPrompt, broadcastRejection, filter_id_of_filter_out_id, isRejectionMsg]
  | ok resp =>
    simp [processPrompt, h, broadcastRejection, filter_id_of_filter_out_id, isRejectionMsg]

theorem headD_le_of_sorted (l : List ℤ) (h : l.Pairwise (· ≤ ·)) :
    ∀ t ∈ l, l.headD 0 ≤ t := by
  cases l with
  | nil => intro t ht; cases ht
  | cons a tl =>
    intro t ht
    rcases List.mem_cons.mp ht with rfl | htl
    · exact le_refl _
    · exact (List.pairwise_cons.mp h).1 t htl

theorem jsCeilDiv_pos {x : ℤ} (h : 0 < x) : 0 < jsCeilDiv x 1000 := by
  unfold jsCeilDiv
  have hneg : (-x) / 1000 < 0 := Int.ediv_neg' (by omega) (by norm_num)
  omega

/-- C4: with working storage, a positive limit and an ascending stored
bucket, a rate-limiter check whose surviving (compacted) timestamps number
at least the limit is denied with a positive retry-after of
ceil((oldest surviving + window - now) / 1000) seconds, the persisted
bucket being the compacted sequence with nothing appended (the head of the
compacted bucket is its oldest entry); otherwise now is appended, persisted
and the check is accepted. -/
theorem rate_limit_check_semantics (st : RLStore) (now : ℤ) (limit : ℕ)
    (hload : st.loadFails = false) (hwrite : st.writeFails = false)
    (hlim : 0 < limit)
    (hsorted : (st.row.getD []).Pairwise (· ≤ ·)) :
    ((compactBucket st.row now).length ≥ limit →
      checkRateLimit st now limit =
        (some (compactBucket st.row now),
         some (jsCeilDiv ((compactBucket st.row now).headD 0 + RATE_LIMIT_WINDOW_MS - now) 1000)) ∧
      0 < jsCeilDiv ((compactBucket st.row now).headD 0 + RATE_LIMIT_WINDOW_MS - now) 1000 ∧
      (∀ t ∈ compactBucket st.row now, (compactBucket st.row now).headD 0 ≤ t)) ∧
    ((compactBucket st.row now).length < limit →
      checkRateLimit st now limit = (some (compactBucket st.row now ++ [now]), none)) := by
  have hsurv_sorted : (compactBucket st.row now).Pairwise (· ≤ ·) :=
    List.Pairwise.sublist (List.filter_sublist _) hsorted
  constructor
  · intro hge
    have hne : compactBucket st.row now ≠ [] := by
      intro hnil
      rw [hnil] at hge
      simp at hge
      omega
    have hhead_mem : (compactBucket st.row now).headD 0 ∈ compactBucket st.row now := by
      cases hl : compactBucket st.row now with
      | nil => exact absurd hl hne
      | cons a tl => simp
    have hhead_new : now - RATE_LIMIT_WINDOW_MS < (compactBucket st.row now).headD 0 := by
      have := List.of_mem_filter hhead_mem
      simpa using this
    refine ⟨?_, jsCeilDiv_pos (by omega), headD_le_of_sorted _ hsurv_sorted⟩
    simp [checkRateLimit, checkRateLimitCore, hload, hwrite, hge]
  · intro hlt
    have hnot : ¬ (compactBucket st.row now).length ≥ limit := by omega
    simp [checkRateLimit, checkRateLimitCore, hload, hwrite, hnot]

/-- Witness for C4 at the spec's scenario (limit 3, window 60000 ms):
a bucket of three accepted events at 0, 1000 and 2000 denies a 4th check
at 3000 with retry-after 57 s and persists the compacted bucket unchanged,
and once the window has fully elapsed a check at 63000 is accepted with
only the new timestamp persisted. -/
theorem rate_limit_check_semantics_witness :
    checkRateLimit ⟨some [0, 1000, 2000], false, false⟩ 3000 3
      = (some [0, 1000, 2000], some 57) ∧
    checkRateLimit ⟨some [0, 1000, 2000], false, false⟩ 63000 3
      = (some [63000], none) := by
  have hA := (rate_limit_check_semantics ⟨some [0, 1000, 2000], false, false⟩ 3000 3
    rfl rfl (by norm_num) (by decide)).1 (by decide)
  have hB := (rate_limit_check_semantics ⟨some [0, 1000, 2000], false, false⟩ 63000 3
    rfl rfl (by norm_num) (by decide)).2 (by decide)
  constructor
  · rw [hA.1]; decide
  · rw [hB]; decide

/-- C8: whenever the SELECT of the bucket row or any write to it raises a
storage error, the rate-limiter check returns acceptance (fails open)
instead of a denial or a propagated exception. -/
theorem rate_limiter_fails_open (st : RLStore) (now : ℤ) (limit : ℕ)
    (h : st.loadFails = true ∨ st.writeFails = true) :
    (checkRateLimit st now limit).2 = none := by
  rcases h with h | h
  · simp [checkRateLimit, checkRateLimitCore, h]
  · by_cases hl : st.loadFails
    · simp [checkRateLimit, checkRateLimitCore, hl]
    · simp [checkRateLimit, checkRateLimitCore, hl, h]

/-- Witness for C8: a check whose bucket SELECT fails is accepted. -/
theorem rate_limiter_fails_open_witness :
    (checkRateLimit ⟨some [0], true, false⟩ 5 3).2 = none :=
  rate_limiter_fails_open ⟨some [0], true, false⟩ 5 3 (Or.inl rfl)

/-- Witness for the amended C3 theorem: a concrete room with one stored
prompt and a moderation verdict of "UNSURE" keeps its state row, drops the
prompt from history, and broadcasts exactly one prompt_rejected message. -/
theorem moderation_fail_closed_witness :
    (processPrompt ⟨some (.good DEFAULT_VIBE_STATE), [⟨"p1", "Alice", "storm", 3⟩]⟩
        "p1" "storm" 3 (.ok (some "UNSURE")) (.parsed {} none)).1.stateRow
      = some (.good DEFAULT_VIBE_STATE) ∧
    ((processPrompt ⟨some (.good DEFAULT_VIBE_STATE), [⟨"p1", "Alice", "storm", 3⟩]⟩
        "p1" "storm" 3 (.ok (some "UNSURE")) (.parsed {} none)).1.prompts.filter
        (fun p => p.id == "p1")) = [] ∧
    ((processPrompt ⟨some (.good DEFAULT_VIBE_STATE), [⟨"p1", "Alice", "storm", 3⟩]⟩
        "p1" "storm" 3 (.ok (some "UNSURE")) (.parsed {} none)).2.countP isRejectionMsg) = 1 :=
  have h := moderation_fail_closed ⟨some (.good DEFAULT_VIBE_STATE), [⟨"p1", "Alice", "storm", 3⟩]⟩
    "p1" "storm" 3 (.ok (some "UNSURE")) (.parsed {} none) rfl
  ⟨h.1, h.2.1, h.2.2.1⟩

/-- C6 counterexample: with two stored prompts created at times 1 and 2,
the recent-prompts list of the connect snapshot is [older, newer] — the
DESC-ordered LIMIT 20 query result is reversed before sending, so the
message is not ordered most-recent-first. -/
theorem snapshot_not_most_recent_first :
    snapshotRecentPrompts ⟨none, [⟨"a", "A", "one", 1⟩, ⟨"b", "B", "two", 2⟩]⟩
      = [⟨"a", "A", "one", 1⟩, ⟨"b", "B", "two", 2⟩] ∧
    ((snapshotRecentPrompts ⟨none, [⟨"a", "A", "one", 1⟩, ⟨"b", "B", "two", 2⟩]⟩).headD
        ⟨"", "", "", 0⟩).created_at
      < ((snapshotRecentPrompts ⟨none, [⟨"a", "A", "one", 1⟩, ⟨"b", "B", "two", 2⟩]⟩).getLastD
        ⟨"", "", "", 0⟩).created_at := by
  constructor
  · rfl
  · decide

/-- C6 (amended): the recent-prompts list of the vibe_state snapshot sent
to a new listener holds at most 20 records, all drawn from the prompts
table, ordered by creation time oldest-first (most-recent-last); and every
stored prompt left out of the snapshot was created no later than every
prompt included in it. -/
theorem snapshot_prompts_bounded_recent (db : RoomDB) :
    (snapshotRecentPrompts db).length ≤ 20 ∧
    List.Pairwise (fun p q => p.created_at ≤ q.created_at) (snapshotRecentPrompts db) ∧
    (∀ p ∈ snapshotRecentPrompts db, p ∈ db.prompts) ∧
    (∀ p ∈ db.prompts, p ∈ snapshotRecentPrompts db ∨
      ∀ q ∈ snapshotRecentPrompts db, p.created_at ≤ q.created_at) := by
  have hsort : (promptsByCreatedDesc db.prompts).Pairwise moreRecent :=
    List.sorted_insertionSort moreRecent db.prompts
  have hperm : (promptsByCreatedDesc db.prompts).Perm db.prompts :=
    List.perm_insertionSort moreRecent db.prompts
  have htake : ((promptsByCreatedDesc db.prompts).take 20).Pairwise moreRecent :=
    List.Pairwise.sublist (List.take_sublist _ _) hsort
  refine ⟨?_, ?_, ?_, ?_⟩
  · simp [snapshotRecentPrompts]
  · rw [snapshotRecentPrompts, List.pairwise_reverse]
    exact htake
  · intro p hp
    rw [snapshotRecentPrompts, List.mem_reverse] at hp
    exact hperm.mem_iff.mp (List.take_subset _ _ hp)
  · intro p hp
    by_cases hin : p ∈ (promptsByCreatedDesc db.prompts).take 20
    · left
      rw [snapshotRecentPrompts, List.mem_reverse]
      exact hin
    · right
      intro q hq
      rw [snapshotRecentPrompts, List.mem_reverse] at hq
      have hp_sorted : p ∈ (promptsByCreatedDesc db.prompts) := hperm.mem_iff.mpr hp
      have hp_drop : p ∈ (promptsByCreatedDesc db.prompts).drop 20 := by
        have hsplit := List.take_append_drop 20 (promptsByCreatedDesc db.prompts)
        rw [← hsplit] at hp_sorted
        rcases List.mem_append.mp hp_sorted with h | h
        · exact absurd h hin
        · exact h
      have hpair := hsort
      rw [← List.take_append_drop 20 (promptsByCreatedDesc db.prompts)] at hpair
      exact (List.pairwise_append.mp hpair).2.2 q hq p hp_drop

/-- Witness for the amended C6 theorem at a concrete two-prompt room:
the snapshot has at most 20 entries, every snapshot entry is a stored
prompt, and each stored prompt is in the snapshot or older than all of it. -/
theorem snapshot_prompts_bounded_recent_witness :
    (snapshotRecentPrompts ⟨none, [⟨"a", "A", "one", 1⟩, ⟨"b", "B", "two", 2⟩]⟩).length ≤ 20 ∧
    (⟨"a", "A", "one", 1⟩ ∈ ([⟨"a", "A", "one", 1⟩, ⟨"b", "B", "two", 2⟩] : List VibePrompt)) ∧
    ((⟨"a", "A", "one", 1⟩ : VibePrompt) ∈
        snapshotRecentPrompts ⟨none, [⟨"a", "A", "one", 1⟩, ⟨"b", "B", "two", 2⟩]⟩ ∨
      ∀ q ∈ snapshotRecentPrompts ⟨none, [⟨"a", "A", "one", 1⟩, ⟨"b", "B", "two", 2⟩]⟩,
        (1 : Nat) ≤ q.created_at) :=
  have h := snapshot_prompts_bounded_recent ⟨none, [⟨"a", "A", "one", 1⟩, ⟨"b", "B", "two", 2⟩]⟩
  ⟨h.1, by decide, h.2.2.2 ⟨"a", "A", "one", 1⟩ (by decide)⟩

/-- C9: the state-seeding step of onStart is idempotent: a fresh start
seeds the single state row with the documented defaults and a second start
leaves that row unchanged and performs no insert; in general, re-running
the seeding on any post-start row is a no-op that never inserts. -/
theorem onStart_seeding_idempotent :
    onStartSeed none = (some (.good DEFAULT_VIBE_STATE), true) ∧
    onStartSeed (onStartSeed none).1 = ((onStartSeed none).1, false) ∧
    (∀ r : Option StoredRow,
      onStartSeed (onStartSeed r).1 = ((onStartSeed r).1, false)) := by
  refine ⟨rfl, rfl, ?_⟩
  intro r
  cases r <;> rfl

/-- C10: reading the current room state is total: an absent singleton row
and a row whose stored text fails to parse both yield the hard-coded
default state, and a parseable row yields exactly the state serialized
into it. -/
theorem getVibeState_total_with_default_fallback :
    getVibeState none = DEFAULT_VIBE_STATE ∧
    (∀ raw : String, getVibeState (some (.corrupt raw)) = DEFAULT_VIBE_STATE) ∧
    (∀ s : VibeState, getVibeState (some (.good s)) = s) :=
  ⟨rfl, fun _ => rfl, fun _ => rfl⟩

end Murmur
